import Mathlib

/-!
Shallow embedding of the ATXP Cloudflare MCP server example
(atxp-dev/atxp-cloudflare-mcp-server-example), covering:

* the request classifier `parseMcpRequest` and token gate `checkToken` /
  `sendOAuthChallenge` of `ATXPWorkerMiddleware` (src/atxpWorkerMiddleware.ts),
* the middleware driver `handleRequest`,
* the worker `fetch` handler of `src/index.ts` together with the module-level
  mutable context of `src/atxpWorkerContext.ts` (modelled as explicit state),
* the payment enforcer `requirePayment` of `src/requirePaymentWorker.ts`.

External collaborators (the OAuth introspection client and the payment server)
are modelled as explicit environment records of functions; JavaScript
exceptions are modelled with an explicit error type and `Except`.
-/

/-! ## JavaScript-side primitives -/

/-- Character-list test: does `hay` begin with `needle`? (used by the
substring test below). -/
def leadsWith : List Char → List Char → Bool
  | [], _ => true
  | _ :: _, [] => false
  | a :: as, b :: bs => a == b && leadsWith as bs

/-- Character-list substring test: does `needle` occur inside `hay`? -/
def containsSub (hay needle : List Char) : Bool :=
  leadsWith needle hay ||
    match hay with
    | [] => false
    | _ :: t => containsSub t needle

/-- Embedding of JavaScript `hay.includes(needle)` on strings. -/
def strIncludes (hay needle : String) : Bool :=
  containsSub hay.data needle.data

/-- Embedding of `s.startsWith(pre)` on strings (written over the character
lists so that it reduces in the kernel). -/
def strStartsWith (s pre : String) : Bool :=
  leadsWith pre.data s.data

/-- Embedding of `s.toLowerCase()` (ASCII, which covers the HTTP method
names compared against here). -/
def strToLower (s : String) : String :=
  ⟨s.data.map Char.toLower⟩

/-- Embedding of `s.replace(/\/$/, '')`: remove one trailing slash. -/
def dropTrailingSlash (s : String) : String :=
  if s.data.getLast? = some '/' then ⟨s.data.dropLast⟩ else s

/-! ## JSON values (result of `JSON.parse`) -/

/-- A parsed JSON value, as produced by `JSON.parse`.  Numbers are modelled as
integers; no claim depends on fractional JSON numbers (only truthiness and
definedness of fields are inspected by the classifier). -/
inductive Json where
  | null
  | bool (b : Bool)
  | num (n : Int)
  | str (s : String)
  | arr (elems : List Json)
  | obj (fields : List (String × Json))

/-- Field lookup on a parsed JSON object.  `JSON.parse` keeps the last
occurrence of a duplicated key, so the lookup returns the last binding. -/
def getField (fields : List (String × Json)) (key : String) : Option Json :=
  match fields with
  | [] => none
  | (k, v) :: rest =>
    match getField rest key with
    | some w => some w
    | none => if k = key then some v else none

/-- JavaScript property access `j[key]` on a parsed JSON value; `none` models
`undefined`.  Non-object values (and arrays, for the non-numeric keys used
here) have no such properties. -/
def Json.get? : Json → String → Option Json
  | .obj fields, key => getField fields key
  | _, _ => none

/-- JavaScript truthiness of a parsed JSON value. -/
def Json.truthy : Json → Bool
  | .null => false
  | .bool b => b
  | .num n => n != 0
  | .str s => s != ""
  | .arr _ => true
  | .obj _ => true

/-- Is the value an array? -/
def Json.isArr : Json → Bool
  | .arr _ => true
  | _ => false

/-- Embedding of `msg && typeof msg === 'object'` on a parsed JSON value:
`typeof` is `'object'` for `null`, arrays and objects, and the truthiness
guard rules `null` out. -/
def jsObjectLike (j : Json) : Bool :=
  j.truthy &&
    (match j with
     | .null => true
     | .arr _ => true
     | .obj _ => true
     | _ => false)

/-- Embedding of `v === '2.0'` applied to an optional property value
(strict equality against the string literal). -/
def isStr20 : Option Json → Bool
  | some (.str s) => s == "2.0"
  | _ => false

/-- Truthiness of an optional property value (`undefined` is falsy). -/
def truthyOpt : Option Json → Bool
  | some v => v.truthy
  | none => false

/-! ## Request classifier (`parseMcpRequest`) -/

/-- Embedding of the batch-entry predicate
`msg => msg && typeof msg === 'object' && msg.jsonrpc === '2.0' && msg.method
&& msg.id !== undefined` from `parseMcpRequest`. -/
def isMcpRpcCall (msg : Json) : Bool :=
  jsObjectLike msg &&
    isStr20 (msg.get? "jsonrpc") &&
    truthyOpt (msg.get? "method") &&
    (msg.get? "id").isSome

/-- Classification of a successfully parsed body, following the
`parsedBody && typeof parsedBody === 'object'` guard, the `Array.isArray`
batch branch (a filter) and the single-request branch of `parseMcpRequest`. -/
def classifyParsed (parsedBody : Json) : List Json :=
  if jsObjectLike parsedBody then
    match parsedBody with
    | .arr msgs => msgs.filter isMcpRpcCall
    | _ =>
      if isStr20 (parsedBody.get? "jsonrpc") &&
          truthyOpt (parsedBody.get? "method") &&
          (parsedBody.get? "id").isSome then
        [parsedBody]
      else []
  else []

/-- Result of reading and `JSON.parse`-ing the request body text:
the text was empty, the parse threw, or it produced a JSON value. -/
inductive BodyText where
  | empty
  | malformed
  | parsed (j : Json)

/-- Classification of a body: empty and malformed bodies yield no calls
(the `if (!body)` guard and the `catch` of `parseMcpRequest`). -/
def classifyBody : BodyText → List Json
  | .empty => []
  | .malformed => []
  | .parsed j => classifyParsed j

/-- The components of a request URL used by the pipeline. -/
structure WorkerUrl where
  protocol : String
  host : String
  pathname : String

/-- Embedding of `new URL(requestUrl.origin)`: same scheme and host,
pathname `/`. -/
def originOf (u : WorkerUrl) : WorkerUrl :=
  { protocol := u.protocol, host := u.host, pathname := "/" }

/-- The parts of an inbound request consumed by the pipeline. -/
structure WorkerRequest where
  method : String
  url : WorkerUrl
  authorization : Option String
  body : BodyText

/-- Embedding of `ATXPWorkerMiddleware.parseMcpRequest`: no calls unless the
HTTP method is a POST and the trailing-slash-normalized path equals the mount
path or `mountPath/message`; then the body is parsed and classified. -/
def parseMcpRequest (mountPath : String) (req : WorkerRequest) : List Json :=
  if strToLower req.method ≠ "post" then []
  else if dropTrailingSlash req.url.pathname ≠ dropTrailingSlash mountPath ∧
      dropTrailingSlash req.url.pathname ≠ dropTrailingSlash mountPath ++ "/message" then []
  else classifyBody req.body

/-! ## Token gate (`checkToken`, `sendOAuthChallenge`) -/

/-- Result of the external token-introspection call
(`oAuthClient.introspectToken`).  The subject is optional: the gate passes the
introspection result through without checking for a subject. -/
structure IntrospectionResult where
  active : Bool
  sub : Option String
  name : Option String

/-- A JavaScript exception value.  `paymentRequired` models the typed error
built by `paymentRequiredError` from `atxp/common`; `error` models a plain
`Error` with the given message; `thrownValue` models a thrown non-`Error`. -/
inductive JsError where
  | paymentRequired (server : String) (paymentRequestId : String) (amount : Rat)
  | error (message : String)
  | thrownValue

/-- Is the error the typed PaymentRequiredSignal? -/
def isPaymentRequiredSignal : JsError → Bool
  | .paymentRequired _ _ _ => true
  | _ => false

/-- Embedding of `error instanceof Error`. -/
def isErrorInstance : JsError → Bool
  | .thrownValue => false
  | _ => true

/-- Message carried by an exception (`error.message`, or `String(error)` for a
non-`Error`).  Modelled from the spec: `paymentRequiredError` (from the
external `atxp/common` package, outside this repository) produces an error
whose message contains the marker `payment_required` — this is how the catch
block of `requirePayment` at requirePaymentWorker.ts:97 recognizes the
signal. -/
def errMessage : JsError → String
  | .paymentRequired _ _ _ => "payment_required"
  | .error m => m
  | .thrownValue => ""

/-- Result of a call into an external collaborator: a value, or a thrown
exception. -/
inductive ExtResult (α : Type) where
  | ok (value : α)
  | err (e : JsError)

/-- The static part of the ATXP configuration built by
`buildWorkerATXPConfig` that the pipeline reads. -/
structure ATXPConfig where
  mountPath : String
  server : String
  currency : String
  network : String
  destination : String
  payeeName : String

/-- The external OAuth collaborator: `introspectToken server token`. -/
structure OAuthEnv where
  introspectToken : String → String → ExtResult IntrospectionResult

/-- Machine-readable problem codes of a failed token verdict, exactly the
string tags used by `checkToken` and `sendOAuthChallenge`. -/
inductive TokenProblem where
  | NO_TOKEN
  | NON_BEARER_AUTH_HEADER
  | INVALID_TOKEN
  | INVALID_AUDIENCE
  | NON_SUFFICIENT_FUNDS
  | INTROSPECT_ERROR

/-- The token verdict produced by `checkToken`.  The success branch in the
source carries no `problem` and no `resourceMetadataUrl` field, so those are
options here. -/
structure TokenCheck where
  passes : Bool
  problem : Option TokenProblem
  data : Option IntrospectionResult
  token : Option String
  resourceMetadataUrl : Option String

/-- The protected-resource metadata URL
`protocol//host/.well-known/oauth-protected-resource{pathname}` computed at
the top of `checkToken`. -/
def resourceMetadataUrlOf (u : WorkerUrl) : String :=
  u.protocol ++ "//" ++ u.host ++ "/.well-known/oauth-protected-resource" ++ u.pathname

/-- Embedding of `ATXPWorkerMiddleware.checkToken`. -/
def checkToken (cfg : ATXPConfig) (env : OAuthEnv) (resourceURL : WorkerUrl)
    (req : WorkerRequest) : TokenCheck :=
  let metaUrl := resourceMetadataUrlOf resourceURL
  match req.authorization with
  | none =>
    { passes := false, problem := some .NO_TOKEN, data := none, token := none,
      resourceMetadataUrl := some metaUrl }
  | some authHeader =>
    if strStartsWith authHeader "Bearer " then
      let token := authHeader.drop 7
      match env.introspectToken cfg.server token with
      | .err _ =>
        { passes := false, problem := some .INTROSPECT_ERROR, data := none,
          token := some token, resourceMetadataUrl := some metaUrl }
      | .ok r =>
        if r.active then
          { passes := true, problem := none, data := some r,
            token := some token, resourceMetadataUrl := none }
        else
          { passes := false, problem := some .INVALID_TOKEN, data := none,
            token := some token, resourceMetadataUrl := some metaUrl }
    else
      { passes := false, problem := some .NON_BEARER_AUTH_HEADER, data := none,
        token := none, resourceMetadataUrl := some metaUrl }

/-- Body of an HTTP response built by this code: a JSON object with optional
`error` / `error_description` members (`JSON.stringify` omits absent ones),
the OAuth protected-resource metadata document, or plain text. -/
inductive ResponseBody where
  | json (error : Option String) (errorDescription : Option String)
  | oauthMetadata
  | text (s : String)

/-- An HTTP response built by this code. -/
structure HttpResponse where
  status : Nat
  body : ResponseBody
  wwwAuthenticate : Option String

/-- Embedding of `ATXPWorkerMiddleware.sendOAuthChallenge`: `none` when the
verdict passes, otherwise the challenge response of the RFC 6750 table.  When
the verdict somehow lacks a `resourceMetadataUrl`, the JavaScript template
literal would interpolate the text `undefined`, which `Option.getD` mirrors. -/
def sendOAuthChallenge (tokenCheck : TokenCheck) : Option HttpResponse :=
  if tokenCheck.passes then none
  else
    let statusBody : Nat × Option String × Option String :=
      match tokenCheck.problem with
      | some .NO_TOKEN => (401, none, none)
      | some .NON_BEARER_AUTH_HEADER =>
        (400, some "invalid_request",
          some "Authorization header did not include a Bearer token")
      | some .INVALID_TOKEN =>
        (401, some "invalid_token", some "Token is not active")
      | some .INVALID_AUDIENCE =>
        (401, some "invalid_token", some "Token does not match the expected audience")
      | some .NON_SUFFICIENT_FUNDS =>
        (403, some "insufficient_scope", some "Non sufficient funds")
      | some .INTROSPECT_ERROR =>
        (502, some "server_error", some "An internal server error occurred")
      | none => (401, none, none)
    some
      { status := statusBody.1,
        body := .json statusBody.2.1 statusBody.2.2,
        wwwAuthenticate :=
          some ("Bearer resource_metadata=\"" ++
            tokenCheck.resourceMetadataUrl.getD "undefined" ++ "\"") }

/-! ## Request context and middleware driver (`handleRequest`) -/

/-- The per-request context object of `atxpWorkerContext.ts`, stored in the
module-level mutable `currentContext`. -/
structure ATXPWorkerContext where
  config : ATXPConfig
  resource : WorkerUrl
  tokenData : Option IntrospectionResult

/-- Embedding of `ATXPWorkerContext.atxpAccountId`:
`this.tokenData?.sub ?? null`. -/
def ATXPWorkerContext.atxpAccountId (c : ATXPWorkerContext) : Option String :=
  c.tokenData.bind IntrospectionResult.sub

/-- Outcome of `ATXPWorkerMiddleware.handleRequest`, together with the state
of the module-level context after the call (the method clears the context
first, so the state afterwards does not depend on the state before) and
whether the token gate (`checkToken`) was consulted. -/
structure HandleResult where
  response : Option HttpResponse
  ctxAfter : Option ATXPWorkerContext
  tokenGateInvoked : Bool

/-- Embedding of `ATXPWorkerMiddleware.handleRequest` (the full OAuth variant
of `atxpWorkerMiddleware.ts`): clear the context, classify the request, skip
the token gate entirely when no MCP calls are found, otherwise check the
token, send the OAuth challenge if the verdict fails, and else populate the
context with the token data.  Logging and the `MyMCP.currentUserId` mirror of
the user id are not modelled. -/
def handleRequest (cfg : ATXPConfig) (env : OAuthEnv) (req : WorkerRequest) :
    HandleResult :=
  let resource := originOf req.url
  let mcpRequests := parseMcpRequest cfg.mountPath req
  if mcpRequests.length = 0 then
    { response := none, ctxAfter := none, tokenGateInvoked := false }
  else
    let tokenCheck := checkToken cfg env resource req
    match sendOAuthChallenge tokenCheck with
    | some challenge =>
      { response := some challenge, ctxAfter := none, tokenGateInvoked := true }
    | none =>
      { response := none,
        ctxAfter := some
          { config := cfg, resource := resource, tokenData := tokenCheck.data },
        tokenGateInvoked := true }

/-! ## The worker fetch handler of `src/index.ts` -/

/-- A result of the top-level `fetch`: a response built by this code, or a
request delegated to the external MCP agent (`MyMCP.serve(path)` /
`MyMCP.serveSSE(path)`). -/
inductive FetchOutcome where
  | response (r : HttpResponse)
  | delegated (route : String)

/-- The 200 response of the `/.well-known/oauth-protected-resource` branch. -/
def metadataResponse : HttpResponse :=
  { status := 200, body := .oauthMetadata, wwwAuthenticate := none }

/-- The 404 fall-through response. -/
def notFoundResponse : HttpResponse :=
  { status := 404, body := .text "Not found", wwwAuthenticate := none }

/-- Embedding of the `fetch` handler of `src/index.ts`, with the module-level
mutable `currentContext` passed as explicit state (`ctxBefore` in, second
component out).  The middleware is assumed initialized.  The `finally` block
of this handler deliberately does not call `clearCurrentRequest()` (the call
is commented out in the source), so the context left by `handleRequest`
survives the return. -/
def fetchIndex (cfg : ATXPConfig) (env : OAuthEnv)
    (ctxBefore : Option ATXPWorkerContext) (req : WorkerRequest) :
    FetchOutcome × Option ATXPWorkerContext :=
  if req.url.pathname = "/.well-known/oauth-protected-resource" then
    (.response metadataResponse, ctxBefore)
  else
    let hr := handleRequest cfg env req
    match hr.response with
    | some resp => (.response resp, hr.ctxAfter)
    | none =>
      if req.url.pathname = "/sse" ∨ req.url.pathname = "/sse/message" then
        (.delegated "/sse", hr.ctxAfter)
      else if req.url.pathname = "/mcp" then
        (.delegated "/mcp", hr.ctxAfter)
      else if req.url.pathname = "/" then
        (.delegated "/", hr.ctxAfter)
      else
        (.response notFoundResponse, hr.ctxAfter)

/-! ## Payment enforcer (`requirePayment` of `requirePaymentWorker.ts`) -/

/-- The `ExtendedPaymentConfig` argument of `requirePayment`.  The optional
`getExistingPaymentId` hook is modelled by its outcome when called: `none`
when the hook is absent (`?.()` then evaluates to `undefined` without a
call), otherwise the value it resolves to or the exception it throws. -/
structure PaymentConfigArg where
  price : Rat
  authenticatedUser : Option String
  getExistingPaymentId : Option (ExtResult (Option String))

/-- The charge descriptor built by `requirePayment` and sent to the payment
server. -/
structure Charge where
  amount : Rat
  currency : String
  network : String
  destination : String
  source : String
  payeeName : String

/-- Result object of `paymentServer.charge`. -/
structure ChargeResult where
  success : Bool

/-- The external payment collaborator (`config.paymentServer`). -/
structure PaymentEnv where
  charge : Charge → ExtResult ChargeResult
  createPaymentRequest : Charge → ExtResult String

/-- The PaymentRequiredSignal constructor.  Modelled from the spec:
`paymentRequiredError` of the external `atxp/common` package builds a typed
error carrying the authorization server, the payment-request id and the
amount (see `errMessage` for its message marker). -/
def paymentRequiredError (server paymentRequestId : String) (amount : Rat) :
    JsError :=
  .paymentRequired server paymentRequestId amount

/-- The catch block of `requirePayment`: re-throw errors whose message
includes `payment_required` as-is, wrap everything else into
`Payment processing failed: ...`. -/
def catchWrap (e : JsError) : JsError :=
  if isErrorInstance e && strIncludes (errMessage e) "payment_required" then e
  else .error ("Payment processing failed: " ++ errMessage e)

/-- JavaScript truthiness applied to an optional string: `null`, `undefined`
and the empty string are falsy. -/
def truthyStr : Option String → Option String
  | some s => if s = "" then none else some s
  | none => none

/-- Config resolution of `requirePayment`: the request-scoped context config,
else the `ATXPMcpApi` fallback (whose `getConfig` throw, when the API is
uninitialized, is caught and leaves the config unset). -/
def resolvedConfig (ctx : Option ATXPWorkerContext)
    (apiConfig : Option ATXPConfig) : Option ATXPConfig :=
  match ctx with
  | some c => some c.config
  | none => apiConfig

/-- User resolution of `requirePayment`: the `authenticatedUser` prop when
truthy, else `atxpAccountId() || undefined` from the request-scoped
context. -/
def resolvedUser (pc : PaymentConfigArg) (ctx : Option ATXPWorkerContext) :
    Option String :=
  match truthyStr pc.authenticatedUser with
  | some u => some u
  | none => truthyStr (ctx.bind ATXPWorkerContext.atxpAccountId)

/-- The charge descriptor `requirePayment` builds from the price, the static
currency/network/destination/payee configuration and the resolved user as
source. -/
def chargeOf (config : ATXPConfig) (pc : PaymentConfigArg) (user : String) :
    Charge :=
  { amount := pc.price, currency := config.currency, network := config.network,
    destination := config.destination, source := user,
    payeeName := config.payeeName }

/-- Execution trace of one `requirePayment` call: its result (normal return
or thrown error) and which external steps ran. -/
structure PaymentTrace where
  result : Except JsError Unit
  chargeCalled : Bool
  lookupCalled : Bool
  createCalled : Bool

/-- Embedding of `requirePayment` (requirePaymentWorker.ts).  `ctx` is the
module-level request context, `apiConfig` the `ATXPMcpApi` fallback config,
`env` the external payment server.  Control flow: resolve the config (throw
if none), resolve the user (throw if none), build the charge descriptor, then
inside the try block charge; on a reported failure consult the optional
`getExistingPaymentId` hook, and either re-raise the signal with the existing
id or mint a new payment request; the catch block wraps non-signal errors. -/
def requirePayment (ctx : Option ATXPWorkerContext)
    (apiConfig : Option ATXPConfig) (pc : PaymentConfigArg)
    (env : PaymentEnv) : PaymentTrace :=
  match resolvedConfig ctx apiConfig with
  | none =>
    { result := .error (.error "No ATXP config found - payments cannot be processed"),
      chargeCalled := false, lookupCalled := false, createCalled := false }
  | some config =>
    match resolvedUser pc ctx with
    | none =>
      { result := .error (.error "No authenticated user found - payment required"),
        chargeCalled := false, lookupCalled := false, createCalled := false }
    | some user =>
      let charge : Charge := chargeOf config pc user
      match env.charge charge with
      | .err e =>
        { result := .error (catchWrap e),
          chargeCalled := true, lookupCalled := false, createCalled := false }
      | .ok res =>
        if res.success then
          { result := .ok (),
            chargeCalled := true, lookupCalled := false, createCalled := false }
        else
          match pc.getExistingPaymentId with
          | some (.err e) =>
            { result := .error (catchWrap e),
              chargeCalled := true, lookupCalled := true, createCalled := false }
          | some (.ok v) =>
            match truthyStr v with
            | some id =>
              { result := .error (catchWrap (paymentRequiredError config.server id charge.amount)),
                chargeCalled := true, lookupCalled := true, createCalled := false }
            | none =>
              match env.createPaymentRequest charge with
              | .err e =>
                { result := .error (catchWrap e),
                  chargeCalled := true, lookupCalled := true, createCalled := true }
              | .ok newId =>
                { result := .error (catchWrap (paymentRequiredError config.server newId charge.amount)),
                  chargeCalled := true, lookupCalled := true, createCalled := true }
          | none =>
            match env.createPaymentRequest charge with
            | .err e =>
              { result := .error (catchWrap e),
                chargeCalled := true, lookupCalled := false, createCalled := true }
            | .ok newId =>
              { result := .error (catchWrap (paymentRequiredError config.server newId charge.amount)),
                chargeCalled := true, lookupCalled := false, createCalled := true }

/-! ## Spec-side predicates (written from the claim wording, for comparison
with the classifier) -/

/-- The qualification criterion exactly as claim C7 words it: an entry
qualifies iff it is an object with `jsonrpc == "2.0"`, a non-empty method
STRING, and a defined id. -/
def specQualifiesRpc (j : Json) : Bool :=
  (match j with | .obj _ => true | _ => false) &&
    isStr20 (j.get? "jsonrpc") &&
    (match j.get? "method" with | some (.str s) => s != "" | _ => false) &&
    (j.get? "id").isSome

/-- Does a parsed body carry at least one qualifying RPC entry (the body is a
qualifying single call, or a batch with at least one qualifying entry)?  Used
to state that bodies which are not JSON-RPC shaped are not gated. -/
def isJsonRpcShaped (j : Json) : Bool :=
  match j with
  | .arr es => es.any isMcpRpcCall
  | _ => isMcpRpcCall j

/-! ## Concrete fixtures used by witnesses and counterexamples -/

/-- A demo configuration matching the values wired in `src/index.ts`. -/
def demoConfig : ATXPConfig :=
  { mountPath := "/", server := "https://auth.atxp.ai", currency := "USDC",
    network := "base", destination := "0xFD", payeeName := "ATXP MCP Server Demo" }

/-- A qualifying JSON-RPC call body entry. -/
def demoRpcEntry : Json :=
  .obj [("jsonrpc", .str "2.0"), ("method", .str "tools/call"), ("id", .num 1)]

/-- An introspection environment whose token is active with subject
`user-42`. -/
def activeIntrospection : OAuthEnv :=
  { introspectToken := fun _ _ =>
      .ok { active := true, sub := some "user-42", name := none } }

/-- A POST to the mount path with a valid bearer token and a qualifying
RPC body. -/
def c1Request : WorkerRequest :=
  { method := "POST",
    url := { protocol := "https:", host := "example.com", pathname := "/" },
    authorization := some "Bearer tok-abc",
    body := .parsed demoRpcEntry }

/-- The context the middleware installs for `c1Request` (and that the fetch
handler of `src/index.ts` leaves behind after returning). -/
def c1LeakedContext : ATXPWorkerContext :=
  { config := demoConfig,
    resource := { protocol := "https:", host := "example.com", pathname := "/" },
    tokenData := some { active := true, sub := some "user-42", name := none } }

/-- The request-scoped worker context for the payment fixtures. -/
def payCtx : ATXPWorkerContext := c1LeakedContext

/-- A payment argument with the authenticated user from props and no
pending-payment lookup hook, as passed by the `hello_world` tool of
`src/index.ts`. -/
def payArgsNoHook : PaymentConfigArg :=
  { price := 1/100, authenticatedUser := some "user-42",
    getExistingPaymentId := none }

/-- First invocation environment: the charge fails and `createPaymentRequest`
mints `pr_1`. -/
def payEnvMint1 : PaymentEnv :=
  { charge := fun _ => .ok { success := false },
    createPaymentRequest := fun _ => .ok "pr_1" }

/-- Second invocation environment: the charge still fails (the first request
is still pending) and `createPaymentRequest` mints the fresh id `pr_2`. -/
def payEnvMint2 : PaymentEnv :=
  { charge := fun _ => .ok { success := false },
    createPaymentRequest := fun _ => .ok "pr_2" }

/-- An environment whose charge succeeds. -/
def payEnvSuccess : PaymentEnv :=
  { charge := fun _ => .ok { success := true },
    createPaymentRequest := fun _ => .ok "pr_unused" }

/-- A transport error from the charge call whose message happens to contain
the `payment_required` marker. -/
def c6TransportError : JsError :=
  .error "connection reset while charging: payment_required"

/-- An environment whose charge call throws `c6TransportError`. -/
def payEnvThrowMarker : PaymentEnv :=
  { charge := fun _ => .err c6TransportError,
    createPaymentRequest := fun _ => .ok "pr_unused" }

/-- An environment whose charge call throws an ordinary transport error. -/
def payEnvThrowPlain : PaymentEnv :=
  { charge := fun _ => .err (.error "socket hang up"),
    createPaymentRequest := fun _ => .ok "pr_unused" }

/-- A batch entry accepted by the classifier whose `method` is the number 42
(truthy, but not a non-empty string). -/
def c7MethodNumEntry : Json :=
  .obj [("jsonrpc", .str "2.0"), ("method", .num 42), ("id", .num 1)]

/-- Introspection environment that reports the token active but without a
subject claim. -/
def noSubIntrospection : OAuthEnv :=
  { introspectToken := fun _ _ =>
      .ok { active := true, sub := none, name := none } }

/-- The resource URL used by the token-gate fixtures. -/
def demoUrl : WorkerUrl :=
  { protocol := "https:", host := "example.com", pathname := "/" }

/-- A POST request to the mount path, bearer token attached, qualifying
body. -/
def bearerRequest : WorkerRequest :=
  { method := "POST", url := demoUrl, authorization := some "Bearer tok-1",
    body := .parsed demoRpcEntry }

/-- An unauthenticated POST request to the mount path with a qualifying
body. -/
def noAuthRequest : WorkerRequest :=
  { method := "POST", url := demoUrl, authorization := none,
    body := .parsed demoRpcEntry }

/-- A GET to the protected-resource metadata path, with a bearer token
attached (the gate must not trigger regardless of headers). -/
def wellKnownGet : WorkerRequest :=
  { method := "GET",
    url := { protocol := "https:", host := "example.com",
             pathname := "/.well-known/oauth-protected-resource" },
    authorization := some "Bearer tok-1", body := .empty }

/-- A POST to the mount path whose body parses to the empty object. -/
def emptyObjectPost : WorkerRequest :=
  { method := "POST", url := demoUrl, authorization := some "Basic xyz",
    body := .parsed (.obj []) }

/-! ## Shared lemmas -/

/-- The catch block re-throws the PaymentRequiredSignal unchanged: its
message contains the `payment_required` marker. -/
theorem catchWrap_signal (s id : String) (a : Rat) :
    catchWrap (JsError.paymentRequired s id a) = JsError.paymentRequired s id a := rfl

/-- The amount of the built charge descriptor is the requested price,
unmodified. -/
theorem chargeOf_amount (config : ATXPConfig) (pc : PaymentConfigArg)
    (user : String) : (chargeOf config pc user).amount = pc.price := rfl

/-- `isStr20` characterization: the strict-equality test accepts exactly the
string value "2.0". -/
theorem isStr20_eq_true_iff (o : Option Json) :
    isStr20 o = true ↔ o = some (.str "2.0") := by
  cases o with
  | none => simp [isStr20]
  | some v => cases v <;> simp [isStr20]


/-- A non-array single body is returned alone exactly when it satisfies the
same entry predicate as a batch entry (shared between the classifier
characterization and the fail-open property). -/
theorem classifyParsed_single (j : Json) (hj : j.isArr = false) :
    classifyParsed j = (if isMcpRpcCall j then [j] else []) := by
  cases j <;>
    simp [classifyParsed, isMcpRpcCall, jsObjectLike, Json.truthy,
      Json.isArr] at hj ⊢

/-! ## C1 -/

/-- C1: the claim says the per-request ATXP context is reset to null on every
exit path of the fetch handler.  The fetch handler of `src/index.ts` does not
do this (its `finally` block has the `clearCurrentRequest()` call commented
out): after handling a POST `/` carrying a valid token for `user-42`, the
module-level context still holds that identity when the handler returns, so
it is observable at the start of the next request. -/
theorem c1_index_fetch_leaves_context_populated :
    (fetchIndex demoConfig activeIntrospection none c1Request).2 = some c1LeakedContext ∧
    c1LeakedContext.atxpAccountId = some "user-42" := ⟨rfl, rfl⟩

/-! ## C3 -/

/-- C3: a POST to the mount path whose body contains a qualifying RPC call
and which carries no Authorization header is answered with status 401, a JSON
body omitting both `error` and `error_description`, and a `WWW-Authenticate`
header of the form `Bearer resource_metadata="<resourceMetadataUrl>"`. -/
theorem c3_no_token_challenge (cfg : ATXPConfig) (env : OAuthEnv)
    (req : WorkerRequest)
    (hpost : strToLower req.method = "post")
    (hpath : dropTrailingSlash req.url.pathname = dropTrailingSlash cfg.mountPath)
    (hauth : req.authorization = none)
    (hbody : classifyBody req.body ≠ []) :
    (handleRequest cfg env req).response =
      some { status := 401, body := .json none none,
             wwwAuthenticate :=
               some ("Bearer resource_metadata=\"" ++
                 resourceMetadataUrlOf (originOf req.url) ++ "\"") } := by
  have hparse : parseMcpRequest cfg.mountPath req = classifyBody req.body := by
    simp [parseMcpRequest, hpost, hpath]
  have hne : ¬ (parseMcpRequest cfg.mountPath req).length = 0 := by
    rw [hparse]
    exact fun h => hbody (List.length_eq_zero.mp h)
  have hct : checkToken cfg env (originOf req.url) req =
      { passes := false, problem := some .NO_TOKEN, data := none, token := none,
        resourceMetadataUrl := some (resourceMetadataUrlOf (originOf req.url)) } := by
    simp [checkToken, hauth]
  simp [handleRequest, hne, hct, sendOAuthChallenge]

/-- Witness for C3 at a concrete unauthenticated POST. -/
theorem c3_no_token_challenge_witness :
    (handleRequest demoConfig activeIntrospection noAuthRequest).response =
      some { status := 401, body := .json none none,
             wwwAuthenticate :=
               some ("Bearer resource_metadata=\"" ++
                 resourceMetadataUrlOf (originOf noAuthRequest.url) ++ "\"") } :=
  c3_no_token_challenge demoConfig activeIntrospection noAuthRequest rfl rfl rfl
    (fun h => absurd (congrArg List.length h) (by decide))

/-! ## C4 -/

/-- C4 counterexample: with an introspector that reports the token active but
supplies no subject, `checkToken` passes while its claims data carries no
`sub` — the claim that a passing verdict always contains a subject is false
on the code (the non-null part does hold: data is the introspection result
itself). -/
theorem c4_counterexample :
    (checkToken demoConfig noSubIntrospection demoUrl bearerRequest).passes = true ∧
    (checkToken demoConfig noSubIntrospection demoUrl bearerRequest).data =
      some { active := true, sub := none, name := none } ∧
    ((checkToken demoConfig noSubIntrospection demoUrl bearerRequest).data.bind
      IntrospectionResult.sub) = none := ⟨rfl, rfl, rfl⟩

/-- C4 (amended): a passing verdict always carries non-null claims data, and
that data is exactly the introspection result (which was active); it contains
a subject exactly when the introspection result did — the gate does not
enforce the presence of `sub`. -/
theorem c4_amended_passes_data_from_introspection (cfg : ATXPConfig)
    (env : OAuthEnv) (resourceURL : WorkerUrl) (req : WorkerRequest)
    (h : (checkToken cfg env resourceURL req).passes = true) :
    ∃ authHeader r, req.authorization = some authHeader ∧
      env.introspectToken cfg.server (authHeader.drop 7) = .ok r ∧
      r.active = true ∧
      (checkToken cfg env resourceURL req).data = some r := by
  cases ha : req.authorization with
  | none => simp [checkToken, ha] at h
  | some a =>
    by_cases hb : strStartsWith a "Bearer "
    · cases hi : env.introspectToken cfg.server (a.drop 7) with
      | err e => simp [checkToken, ha, hb, hi] at h
      | ok r =>
        by_cases hact : r.active
        · refine ⟨a, r, rfl, hi, hact, ?_⟩
          simp [checkToken, ha, hb, hi, hact]
        · simp [checkToken, ha, hb, hi, hact] at h
    · simp [checkToken, ha, hb] at h

/-- Witness for the amended C4 at a concrete passing request. -/
theorem c4_amended_witness :
    (checkToken demoConfig activeIntrospection demoUrl bearerRequest).passes = true ∧
    (checkToken demoConfig activeIntrospection demoUrl bearerRequest).data ≠ none := by
  refine ⟨rfl, ?_⟩
  obtain ⟨a, r, ha, hi, hact, hdata⟩ :=
    c4_amended_passes_data_from_introspection demoConfig activeIntrospection
      demoUrl bearerRequest rfl
  rw [hdata]
  exact fun hc => Option.noConfusion hc

/-! ## C7 -/

/-- C7 counterexample: the classifier returns the batch entry whose `method`
is the number 42 (a truthy non-string), so the returned list is not "exactly
those entries with a non-empty method string". -/
theorem c7_counterexample :
    classifyParsed (.arr [c7MethodNumEntry]) = [c7MethodNumEntry] ∧
    specQualifiesRpc c7MethodNumEntry = false := ⟨rfl, rfl⟩

/-- C7 (amended): the classifier returns exactly those batch entries that are
object-typed (objects or arrays, not null) with `jsonrpc` strictly equal to
"2.0", a TRUTHY `method` value (any truthy value, not only non-empty
strings), and a defined `id`; a non-array single body is returned alone
exactly under the same conditions. -/
theorem c7_amended_truthy_method_classifier (elems : List Json) (j : Json)
    (hj : j.isArr = false) :
    (∀ x, x ∈ classifyParsed (.arr elems) ↔
        x ∈ elems ∧ jsObjectLike x = true ∧
        x.get? "jsonrpc" = some (.str "2.0") ∧
        truthyOpt (x.get? "method") = true ∧
        (x.get? "id").isSome = true) ∧
    classifyParsed j = (if isMcpRpcCall j then [j] else []) := by
  constructor
  · intro x
    simp [classifyParsed, jsObjectLike, Json.truthy, List.mem_filter,
      isMcpRpcCall, isStr20_eq_true_iff, and_assoc]
  · exact classifyParsed_single j hj

/-- Witness for the amended C7: the number-method entry is returned from a
batch, and a single `"hello"` body yields nothing. -/
theorem c7_amended_witness :
    c7MethodNumEntry ∈ classifyParsed (.arr [c7MethodNumEntry]) ∧
    classifyParsed (.str "hello") = [] := by
  have h := c7_amended_truthy_method_classifier [c7MethodNumEntry] (.str "hello") rfl
  exact ⟨(h.1 c7MethodNumEntry).mpr ⟨List.mem_singleton.mpr rfl, rfl, rfl, rfl, rfl⟩, h.2⟩

/-! ## C8 -/

/-- C8: the classifier returns the empty list whenever the method is not a
POST or the normalized path is neither the mount path nor
`mountPath/message`; the gate step is then skipped entirely and the request
passes through ungated. -/
theorem c8_not_gated_without_post_mount (cfg : ATXPConfig) (env : OAuthEnv)
    (req : WorkerRequest)
    (h : strToLower req.method ≠ "post" ∨
      (dropTrailingSlash req.url.pathname ≠ dropTrailingSlash cfg.mountPath ∧
       dropTrailingSlash req.url.pathname ≠ dropTrailingSlash cfg.mountPath ++ "/message")) :
    parseMcpRequest cfg.mountPath req = [] ∧
    (handleRequest cfg env req).tokenGateInvoked = false ∧
    (handleRequest cfg env req).response = none := by
  have hp : parseMcpRequest cfg.mountPath req = [] := by
    rcases h with h | h
    · simp [parseMcpRequest, h]
    · simp [parseMcpRequest, h.1, h.2]
  exact ⟨hp, by simp [handleRequest, hp], by simp [handleRequest, hp]⟩

/-- Witness for C8: a GET to `/.well-known/oauth-protected-resource` with a
bearer token attached never reaches the token gate. -/
theorem c8_not_gated_witness :
    parseMcpRequest demoConfig.mountPath wellKnownGet = [] ∧
    (handleRequest demoConfig activeIntrospection wellKnownGet).tokenGateInvoked = false ∧
    (handleRequest demoConfig activeIntrospection wellKnownGet).response = none :=
  c8_not_gated_without_post_mount demoConfig activeIntrospection wellKnownGet
    (Or.inl (by decide))

/-! ## C9 -/

/-- C9: a request whose body fails to parse as JSON, or parses to something
that is not a JSON-RPC object/array, is classified as empty and passes
through ungated with no challenge. -/
theorem c9_fail_open_unparsable_body (cfg : ATXPConfig) (env : OAuthEnv)
    (req : WorkerRequest)
    (h : req.body = .malformed ∨
      ∃ j, req.body = .parsed j ∧ isJsonRpcShaped j = false) :
    parseMcpRequest cfg.mountPath req = [] ∧
    (handleRequest cfg env req).response = none ∧
    (handleRequest cfg env req).tokenGateInvoked = false := by
  have hb : classifyBody req.body = [] := by
    rcases h with h | ⟨j, hj, hshape⟩
    · rw [h]; rfl
    · rw [hj]
      show classifyParsed j = []
      cases j with
      | arr es =>
        simp only [isJsonRpcShaped] at hshape
        have hall : ∀ a ∈ es, ¬ isMcpRpcCall a = true := by
          simpa [List.any_eq_false] using hshape
        simp [classifyParsed, jsObjectLike, Json.truthy,
          List.filter_eq_nil_iff.mpr hall]
      | null =>
        rw [classifyParsed_single (Json.null) rfl]
        simp only [isJsonRpcShaped] at hshape
        simp [hshape]
      | bool b =>
        rw [classifyParsed_single (Json.bool b) rfl]
        simp only [isJsonRpcShaped] at hshape
        simp [hshape]
      | num n =>
        rw [classifyParsed_single (Json.num n) rfl]
        simp only [isJsonRpcShaped] at hshape
        simp [hshape]
      | str s =>
        rw [classifyParsed_single (Json.str s) rfl]
        simp only [isJsonRpcShaped] at hshape
        simp [hshape]
      | obj fields =>
        rw [classifyParsed_single (Json.obj fields) rfl]
        simp only [isJsonRpcShaped] at hshape
        simp [hshape]
  have hp : parseMcpRequest cfg.mountPath req = [] := by
    unfold parseMcpRequest
    split
    · rfl
    · split
      · rfl
      · exact hb
  exact ⟨hp, by simp [handleRequest, hp], by simp [handleRequest, hp]⟩

/-- Witness for C9: a POST to the mount path whose body is the empty object
passes through without a challenge. -/
theorem c9_fail_open_witness :
    parseMcpRequest demoConfig.mountPath emptyObjectPost = [] ∧
    (handleRequest demoConfig activeIntrospection emptyObjectPost).response = none ∧
    (handleRequest demoConfig activeIntrospection emptyObjectPost).tokenGateInvoked = false :=
  c9_fail_open_unparsable_body demoConfig activeIntrospection emptyObjectPost
    (Or.inr ⟨.obj [], rfl, rfl⟩)

/-! ## C10 -/

/-- C10: whenever the charge reports success, `requirePayment` returns
normally, and neither the pending-payment lookup nor `createPaymentRequest`
is invoked — no payment request is minted on a successful charge. -/
theorem c10_success_frame (ctx : Option ATXPWorkerContext)
    (apiConfig : Option ATXPConfig) (pc : PaymentConfigArg) (env : PaymentEnv)
    (config : ATXPConfig) (user : String)
    (hcfg : resolvedConfig ctx apiConfig = some config)
    (huser : resolvedUser pc ctx = some user)
    (hcharge : env.charge (chargeOf config pc user) = .ok { success := true }) :
    (requirePayment ctx apiConfig pc env).result = .ok () ∧
    (requirePayment ctx apiConfig pc env).lookupCalled = false ∧
    (requirePayment ctx apiConfig pc env).createCalled = false := by
  refine ⟨?_, ?_, ?_⟩ <;> simp [requirePayment, hcfg, huser, hcharge]

/-- Witness for C10 at a concrete successful charge. -/
theorem c10_success_frame_witness :
    (requirePayment (some payCtx) none payArgsNoHook payEnvSuccess).result = .ok () ∧
    (requirePayment (some payCtx) none payArgsNoHook payEnvSuccess).lookupCalled = false ∧
    (requirePayment (some payCtx) none payArgsNoHook payEnvSuccess).createCalled = false :=
  c10_success_frame (some payCtx) none payArgsNoHook payEnvSuccess demoConfig
    "user-42" rfl rfl rfl

/-! ## C5 -/

/-- C5: when the charge reports failure, the caller-supplied lookup is
consulted first; when it yields a (truthy) id, the raised
PaymentRequiredSignal carries that id and `createPaymentRequest` is not
called; when the hook is absent or yields no id, `createPaymentRequest` is
called and the raised signal carries the newly minted id. -/
theorem c5_lookup_before_create (ctx : Option ATXPWorkerContext)
    (apiConfig : Option ATXPConfig) (pc : PaymentConfigArg) (env : PaymentEnv)
    (config : ATXPConfig) (user : String)
    (hcfg : resolvedConfig ctx apiConfig = some config)
    (huser : resolvedUser pc ctx = some user)
    (hcharge : env.charge (chargeOf config pc user) = .ok { success := false }) :
    (∀ id, pc.getExistingPaymentId = some (.ok (some id)) → id ≠ "" →
      (requirePayment ctx apiConfig pc env).result =
          .error (.paymentRequired config.server id pc.price) ∧
        (requirePayment ctx apiConfig pc env).lookupCalled = true ∧
        (requirePayment ctx apiConfig pc env).createCalled = false) ∧
    (∀ newId,
      (pc.getExistingPaymentId = none ∨ pc.getExistingPaymentId = some (.ok none) ∨
        pc.getExistingPaymentId = some (.ok (some ""))) →
      env.createPaymentRequest (chargeOf config pc user) = .ok newId →
      (requirePayment ctx apiConfig pc env).result =
          .error (.paymentRequired config.server newId pc.price) ∧
        (requirePayment ctx apiConfig pc env).createCalled = true) := by
  constructor
  · intro id hid hne
    refine ⟨?_, ?_, ?_⟩ <;>
      simp [requirePayment, hcfg, huser, hcharge, hid, truthyStr, hne,
        catchWrap_signal, paymentRequiredError, chargeOf_amount]
  · intro newId hhook hcreate
    rcases hhook with hhook | hhook | hhook <;>
      refine ⟨?_, ?_⟩ <;>
        simp [requirePayment, hcfg, huser, hcharge, hhook, hcreate, truthyStr,
          catchWrap_signal, paymentRequiredError, chargeOf_amount]

/-- Witness for C5: both branches at concrete inputs (an existing id
`pr_old`, and a freshly minted `pr_1`). -/
theorem c5_lookup_before_create_witness :
    ((requirePayment (some payCtx) none
        { payArgsNoHook with getExistingPaymentId := some (.ok (some "pr_old")) }
        payEnvMint1).result =
          .error (.paymentRequired demoConfig.server "pr_old" payArgsNoHook.price) ∧
      (requirePayment (some payCtx) none
        { payArgsNoHook with getExistingPaymentId := some (.ok (some "pr_old")) }
        payEnvMint1).lookupCalled = true ∧
      (requirePayment (some payCtx) none
        { payArgsNoHook with getExistingPaymentId := some (.ok (some "pr_old")) }
        payEnvMint1).createCalled = false) ∧
    ((requirePayment (some payCtx) none payArgsNoHook payEnvMint1).result =
        .error (.paymentRequired demoConfig.server "pr_1" payArgsNoHook.price) ∧
      (requirePayment (some payCtx) none payArgsNoHook payEnvMint1).createCalled = true) := by
  constructor
  · exact (c5_lookup_before_create (some payCtx) none
      { payArgsNoHook with getExistingPaymentId := some (.ok (some "pr_old")) }
      payEnvMint1 demoConfig "user-42" rfl rfl rfl).1 "pr_old" rfl (by decide)
  · exact (c5_lookup_before_create (some payCtx) none payArgsNoHook
      payEnvMint1 demoConfig "user-42" rfl rfl rfl).2 "pr_1" (Or.inl rfl) rfl

/-! ## C2 -/

/-- C2 counterexample: two invocations of `requirePayment` with the same
charge descriptor while the first minted request is still pending (both
charges report failure), no lookup hook supplied (as in the repository's
`hello_world` tool): the second invocation calls `createPaymentRequest`
again and raises whatever fresh id it mints (`pr_2` ≠ `pr_1`), so a second
payment request is minted for one logical pending charge. -/
theorem c2_counterexample :
    (requirePayment (some payCtx) none payArgsNoHook payEnvMint1).result =
      .error (.paymentRequired "https://auth.atxp.ai" "pr_1" payArgsNoHook.price) ∧
    (requirePayment (some payCtx) none payArgsNoHook payEnvMint2).result =
      .error (.paymentRequired "https://auth.atxp.ai" "pr_2" payArgsNoHook.price) ∧
    "pr_1" ≠ "pr_2" := ⟨rfl, rfl, by decide⟩

/-- C2 (amended): the second invocation raises the same PaymentRequestId as
the first only when the caller supplies a `getExistingPaymentId` hook that
yields the id minted by the first invocation; `requirePayment` itself records
nothing between calls. -/
theorem c2_amended_idempotent_via_lookup (ctx : Option ATXPWorkerContext)
    (apiConfig : Option ATXPConfig) (pc : PaymentConfigArg)
    (env1 env2 : PaymentEnv) (config : ATXPConfig) (user id1 : String)
    (hcfg : resolvedConfig ctx apiConfig = some config)
    (huser : resolvedUser pc ctx = some user)
    (hpc : pc.getExistingPaymentId = none)
    (hch1 : env1.charge (chargeOf config pc user) = .ok { success := false })
    (hcr1 : env1.createPaymentRequest (chargeOf config pc user) = .ok id1)
    (hch2 : env2.charge (chargeOf config pc user) = .ok { success := false })
    (hid : id1 ≠ "") :
    (requirePayment ctx apiConfig pc env1).result =
      .error (.paymentRequired config.server id1 pc.price) ∧
    (requirePayment ctx apiConfig
        { pc with getExistingPaymentId := some (.ok (some id1)) } env2).result =
      .error (.paymentRequired config.server id1 pc.price) := by
  constructor
  · simp [requirePayment, hcfg, huser, hpc, hch1, hcr1, truthyStr,
      catchWrap_signal, paymentRequiredError, chargeOf_amount]
  · have huser2 : resolvedUser
        { pc with getExistingPaymentId := some (.ok (some id1)) } ctx = some user := huser
    have hch2b : env2.charge
        (chargeOf config { pc with getExistingPaymentId := some (.ok (some id1)) } user) =
        .ok { success := false } := hch2
    simp [requirePayment, hcfg, huser2, hch2b, truthyStr, hid,
      catchWrap_signal, paymentRequiredError, chargeOf_amount]

/-- Witness for the amended C2 at concrete inputs. -/
theorem c2_amended_witness :
    (requirePayment (some payCtx) none payArgsNoHook payEnvMint1).result =
      .error (.paymentRequired demoConfig.server "pr_1" payArgsNoHook.price) ∧
    (requirePayment (some payCtx) none
        { payArgsNoHook with getExistingPaymentId := some (.ok (some "pr_1")) }
        payEnvMint2).result =
      .error (.paymentRequired demoConfig.server "pr_1" payArgsNoHook.price) :=
  c2_amended_idempotent_via_lookup (some payCtx) none payArgsNoHook payEnvMint1
    payEnvMint2 demoConfig "user-42" "pr_1" rfl rfl rfl rfl rfl rfl (by decide)

/-! ## C6 -/

/-- C6 counterexample: a lower-level transport error thrown by the charge
call whose message happens to contain the `payment_required` marker is
re-raised unchanged by the catch block instead of being wrapped into a
generic processing failure — the error-kind discrimination is a message
substring test, so this error is indistinguishable from the signal for
callers using the same test, while not being the typed signal. -/
theorem c6_counterexample :
    (requirePayment (some payCtx) none payArgsNoHook payEnvThrowMarker).result =
      .error c6TransportError ∧
    isPaymentRequiredSignal c6TransportError = false := ⟨rfl, rfl⟩

/-- C6 (amended): every lower-level error from the charge or
`createPaymentRequest` calls whose message does not contain the
`payment_required` marker is wrapped into the generic
`Payment processing failed: ...` failure (never the typed signal), and the
PaymentRequiredSignal itself passes the catch block unchanged; the
discrimination is by message substring. -/
theorem c6_amended_wrap_by_message_marker (ctx : Option ATXPWorkerContext)
    (apiConfig : Option ATXPConfig) (pc : PaymentConfigArg) (env : PaymentEnv)
    (config : ATXPConfig) (user : String)
    (hcfg : resolvedConfig ctx apiConfig = some config)
    (huser : resolvedUser pc ctx = some user) :
    (∀ e, env.charge (chargeOf config pc user) = .err e →
      strIncludes (errMessage e) "payment_required" = false →
      (requirePayment ctx apiConfig pc env).result =
        .error (.error ("Payment processing failed: " ++ errMessage e)) ∧
      isPaymentRequiredSignal
        (.error ("Payment processing failed: " ++ errMessage e)) = false) ∧
    (∀ e, env.charge (chargeOf config pc user) = .ok { success := false } →
      pc.getExistingPaymentId = none →
      env.createPaymentRequest (chargeOf config pc user) = .err e →
      strIncludes (errMessage e) "payment_required" = false →
      (requirePayment ctx apiConfig pc env).result =
        .error (.error ("Payment processing failed: " ++ errMessage e))) ∧
    (∀ id, env.charge (chargeOf config pc user) = .ok { success := false } →
      pc.getExistingPaymentId = some (.ok (some id)) → id ≠ "" →
      (requirePayment ctx apiConfig pc env).result =
        .error (paymentRequiredError config.server id pc.price) ∧
      isPaymentRequiredSignal (paymentRequiredError config.server id pc.price) = true) := by
  refine ⟨?_, ?_, ?_⟩
  · intro e hch hmark
    constructor
    · simp [requirePayment, hcfg, huser, hch, catchWrap, hmark]
    · rfl
  · intro e hch hpc hcr hmark
    simp [requirePayment, hcfg, huser, hch, hpc, hcr, catchWrap, hmark]
  · intro id hch hpc hne
    constructor
    · simp [requirePayment, hcfg, huser, hch, hpc, truthyStr, hne,
        catchWrap_signal, paymentRequiredError, chargeOf_amount]
    · rfl

/-- Witness for the amended C6: a plain transport error is wrapped, and the
signal passes unchanged. -/
theorem c6_amended_witness :
    (requirePayment (some payCtx) none payArgsNoHook payEnvThrowPlain).result =
      .error (.error ("Payment processing failed: " ++ "socket hang up")) ∧
    (requirePayment (some payCtx) none
        { payArgsNoHook with getExistingPaymentId := some (.ok (some "pr_old")) }
        payEnvMint1).result =
      .error (paymentRequiredError demoConfig.server "pr_old" payArgsNoHook.price) := by
  constructor
  · exact ((c6_amended_wrap_by_message_marker (some payCtx) none payArgsNoHook
      payEnvThrowPlain demoConfig "user-42" rfl rfl).1 (.error "socket hang up")
      rfl (by decide)).1
  · exact ((c6_amended_wrap_by_message_marker (some payCtx) none
      { payArgsNoHook with getExistingPaymentId := some (.ok (some "pr_old")) }
      payEnvMint1 demoConfig "user-42" rfl rfl).2.2 "pr_old" rfl rfl (by decide)).1
